import Mathlib

/-!
Verification development for the Sales-LM Supabase edge functions:
a shallow embedding of `supabase/functions/process-document/index.ts`
(Handler A) and `supabase/functions/send-chat-message/index.ts`
(Handler B), followed by theorems about the embedded handlers.

Platform collaborators (the JSON codec, the clock, the outbound `fetch`
and the Supabase store client) are modelled as explicit oracle
parameters of the handlers; the control flow, branch conditions,
literal message strings and constructed response shapes are translated
directly from the two TypeScript sources.
-/

set_option maxRecDepth 4000

/-- JSON values.  Objects and arrays are cons-encoded so that equality
is derivable; `JValue.obj` below rebuilds the usual list-of-fields view. -/
inductive JValue where
  | jnull
  | jbool (b : Bool)
  | jnum (n : Int)
  | jstr (s : String)
  | jobjNil
  | jobjCons (key : String) (value : JValue) (rest : JValue)
  | jarrNil
  | jarrCons (head : JValue) (tail : JValue)
deriving Repr, DecidableEq

/-- Build a JSON object from a list of fields. -/
def JValue.obj : List (String × JValue) → JValue
  | [] => .jobjNil
  | (k, v) :: rest => .jobjCons k v (JValue.obj rest)

/-- Whether a JSON object has a field with the given key. -/
def JValue.hasKey : JValue → String → Bool
  | .jobjCons k _ rest, key => k == key || rest.hasKey key
  | _, _ => false

/-- JavaScript string truthiness of an optional environment or request
value: `undefined` (absent) and the empty string are falsy. -/
def strTruthy : Option String → Bool
  | none => false
  | some s => !(s == "")

/-- JavaScript template interpolation of a possibly-undefined value:
an unset environment variable prints as the string `undefined`. -/
def envStr (o : Option String) : String := o.getD "undefined"

/-- The `corsHeaders` constant shared by both handler sources. -/
def corsHeaders : List (String × String) :=
  [("Access-Control-Allow-Origin", "*"),
   ("Access-Control-Allow-Headers", "authorization, x-client-info, apikey, content-type")]

/-- Headers of the JSON responses: `{ ...corsHeaders, Content-Type: application/json }`. -/
def jsonHeaders : List (String × String) :=
  corsHeaders ++ [("Content-Type", "application/json")]

/-- Body of an HTTP response produced by a handler: `Response(null, ...)`,
`Response(<raw text>, ...)` or `Response(JSON.stringify(<value>), ...)`. -/
inductive ResponseBody where
  | empty
  | text (s : String)
  | json (v : JValue)
deriving Repr, DecidableEq

/-- An HTTP response as constructed by the handlers (`new Response`
defaults to status 200 when none is given). -/
structure HttpResponse where
  status : Nat
  headers : List (String × String)
  body : ResponseBody
deriving Repr, DecidableEq

/-- The process environment (`Deno.env.get`) restricted to the five
variables the two handlers read; `none` models an unset variable. -/
structure EnvVars where
  supabaseUrl : Option String
  supabaseServiceRoleKey : Option String
  documentProcessingWebhookUrl : Option String
  notebookGenerationAuth : Option String
  notebookChatUrl : Option String
deriving Repr, DecidableEq

/-! ### URL validator

Both sources define the same helper:
`isValidUrl(s) { try { new URL(s); return true } catch { return false } }`.
`newURLSucceeds` is the modelled platform API: the success predicate of
the WHATWG basic URL parser on an absolute URL (simplified: IDNA,
percent-encoding validation and the digit grammar inside IPv6 brackets
are omitted; none of these affect any input considered here). -/

/-- First character of a URL scheme: an ASCII letter. -/
def isSchemeStartChar (c : Char) : Bool := c.isAlpha

/-- Subsequent characters of a URL scheme. -/
def isSchemeChar (c : Char) : Bool := c.isAlphanum || c == '+' || c == '-' || c == '.'

/-- Split `scheme:rest` at the first colon, requiring every character
before it to be a scheme character; fails when no colon is reached. -/
def schemeSplitAux : List Char → Option (List Char × List Char)
  | [] => none
  | c :: cs =>
    if c == ':' then some ([], cs)
    else if isSchemeChar c then
      match schemeSplitAux cs with
      | some (sch, rest) => some (c :: sch, rest)
      | none => none
    else none

/-- Forbidden host code points of the WHATWG URL standard. -/
def forbiddenHostChar (c : Char) : Bool :=
  c == '\x00' || c == '\t' || c == '\n' || c == '\r' || c == ' ' || c == '#' ||
  c == '/' || c == ':' || c == '<' || c == '>' || c == '?' || c == '@' ||
  c == '[' || c == '\\' || c == ']' || c == '^' || c == '|'

/-- Whether a list of characters is all ASCII digits (an optional port). -/
def digitsOnly (cs : List Char) : Bool := cs.all Char.isDigit

/-- Validity of the `host[:port]` portion of a special-scheme authority. -/
def validHostPort (cs : List Char) : Bool :=
  match cs with
  | '[' :: rest =>
    let inside := rest.takeWhile (fun c => !(c == ']'))
    match rest.dropWhile (fun c => !(c == ']')) with
    | ']' :: tail =>
      !inside.isEmpty &&
      (tail.isEmpty || (tail.head? == some ':' && digitsOnly tail.tail))
    | _ => false
  | _ =>
    let host := cs.takeWhile (fun c => !(c == ':'))
    let rest := cs.dropWhile (fun c => !(c == ':'))
    !host.isEmpty && host.all (fun c => !forbiddenHostChar c) &&
    (match rest with
     | [] => true
     | _ :: port => digitsOnly port)

/-- Schemes the URL standard treats as special, other than `file`. -/
def specialSchemes : List String := ["http", "https", "ws", "wss", "ftp"]

/-- The basic URL parser on a pre-cleaned character list. -/
def parseURLChars (cs : List Char) : Bool :=
  match schemeSplitAux cs with
  | none => false
  | some (sch, rest) =>
    match sch with
    | [] => false
    | c0 :: _ =>
      if !isSchemeStartChar c0 then false
      else
        let scheme := (sch.map Char.toLower).asString
        if scheme == "file" then true
        else if specialSchemes.contains scheme then
          let rest2 := rest.dropWhile (fun c => c == '/' || c == '\\')
          let authority := rest2.takeWhile
            (fun c => !(c == '/' || c == '\\' || c == '?' || c == '#'))
          validHostPort ((authority.reverse.takeWhile (fun c => !(c == '@'))).reverse)
        else true

/-- Strip leading and trailing C0 controls and spaces. -/
def trimControlAndSpace (cs : List Char) : List Char :=
  ((cs.dropWhile (fun c => decide (c.toNat ≤ 32))).reverse.dropWhile
    (fun c => decide (c.toNat ≤ 32))).reverse

/-- Modelled platform API: whether `new URL(s)` (no base) succeeds. -/
def newURLSucceeds (s : String) : Bool :=
  parseURLChars
    ((trimControlAndSpace s.data).filter (fun c => !(c == '\t' || c == '\n' || c == '\r')))

/-- The shared `isValidUrl` helper: `new URL(s)` wrapped in
try/catch, returning whether construction succeeded. -/
def isValidUrl (s : String) : Bool := newURLSucceeds s

/-! ### Handler A collaborators -/

/-- One update of a status record in the `sources` table: the row key,
the `processing_status` value, and the `metadata.error` message when one
was attached. -/
structure StatusWrite where
  sourceId : String
  status : String
  errorMessage : Option String
deriving Repr, DecidableEq

/-- The update record built by `updateSourceStatus`: the metadata error
field is attached only when `errorMessage` is truthy. -/
def updateSourceStatus (sourceId status : String) (errorMessage : Option String) :
    StatusWrite :=
  { sourceId, status,
    errorMessage := if strTruthy errorMessage then errorMessage else none }

/-- Outcome of a platform call that either returns a value or throws a
JavaScript error carrying a message. -/
inductive JsResult (α : Type) where
  | ok (val : α)
  | err (msg : String)
deriving Repr, DecidableEq

/-- Parsed fields of the Handler A request body `{sourceId, filePath,
sourceType}`; request fields are modelled as optional JSON strings
(`none` models an absent key). -/
structure BodyA where
  sourceId : Option String
  filePath : Option String
  sourceType : Option String
deriving Repr, DecidableEq

/-- A request to Handler A: the method and the outcome of `req.json()`
(an `err` models a body that does not parse, with the message of the
thrown error; `req.clone().json()` yields the same outcome). -/
structure RequestA where
  method : String
  body : JsResult BodyA
deriving Repr, DecidableEq

/-- A response of the outbound `fetch`: status, status text and the raw
body text. -/
structure WebResponse where
  status : Nat
  statusText : String
  bodyText : String
deriving Repr, DecidableEq

/-- The `response.ok` getter: status in the range 200..299. -/
def WebResponse.isOk (r : WebResponse) : Bool := 200 ≤ r.status && r.status < 300

/-- Outcome of the outbound `fetch`: a network-level rejection with a
message, or a response. -/
inductive FetchOutcome where
  | networkError (msg : String)
  | response (r : WebResponse)
deriving Repr, DecidableEq

/-- Remaining platform collaborators: the JSON codec (`parseJson s = none`
models `JSON.parse` throwing on `s`, and `jsonErrMsg s` is the message of
that SyntaxError) and the clock (`now` is the sampled
`new Date().toISOString()`; no claim distinguishes successive reads). -/
structure JsRuntime where
  parseJson : String → Option JValue
  jsonErrMsg : String → String
  now : String

/-- Result of one Handler A invocation: the response together with the
payloads POSTed to the webhook, the `updateSourceStatus` calls attempted
(in order), and those that completed without the store client throwing. -/
structure ResultA where
  response : HttpResponse
  fetchCalls : List JValue
  attempts : List StatusWrite
  writes : List StatusWrite
deriving Repr, DecidableEq

/-- The top-level catch of Handler A: best-effort recovery re-parses the
request to recover `sourceId` and mark the status failed (a throw of
that recovery write is swallowed), then responds 500 with the generic
internal-error body carrying the caught message.  `updateFail n` is the
store oracle: `some m` means the n-th `updateSourceStatus` call of this
invocation throws with message `m`. -/
def processDocumentCatch (req : RequestA) (updateFail : Nat → Option String)
    (callIdx : Nat) (errMsg : String)
    (fetchCalls : List JValue) (attempts writes : List StatusWrite) : ResultA :=
  let recovered :=
    match req.body with
    | .ok b =>
      if strTruthy b.sourceId then
        let w := updateSourceStatus (b.sourceId.getD "") "failed"
          (some "Internal server error during document processing")
        match updateFail callIdx with
        | none => (attempts ++ [w], writes ++ [w])
        | some _ => (attempts ++ [w], writes)
      else (attempts, writes)
    | .err _ => (attempts, writes)
  { response :=
      { status := 500, headers := jsonHeaders,
        body := .json (.obj [("error", .jstr "Internal server error"),
                             ("details", .jstr errMsg)]) },
    fetchCalls, attempts := recovered.1, writes := recovered.2 }

/-- An awaited `updateSourceStatus` call (the first of the invocation)
followed by the branch response; when the store client throws, control
transfers to the top-level catch. -/
def updateThenRespond (req : RequestA) (updateFail : Nat → Option String)
    (w : StatusWrite) (resp : HttpResponse) (fetchCalls : List JValue) : ResultA :=
  match updateFail 0 with
  | none => { response := resp, fetchCalls, attempts := [w], writes := [w] }
  | some m => processDocumentCatch req updateFail 1 m fetchCalls [w] []

/-- Handler A, `supabase/functions/process-document/index.ts`. -/
def processDocument (env : EnvVars) (req : RequestA) (fetch : FetchOutcome)
    (updateFail : Nat → Option String) (rt : JsRuntime) : ResultA :=
  if req.method == "OPTIONS" then
    { response := { status := 200, headers := corsHeaders, body := .text "ok" },
      fetchCalls := [], attempts := [], writes := [] }
  else
    match req.body with
    | .err msg => processDocumentCatch req updateFail 0 msg [] [] []
    | .ok b =>
      if !strTruthy b.sourceId || !strTruthy b.filePath || !strTruthy b.sourceType then
        { response :=
            { status := 400, headers := jsonHeaders,
              body := .json (.obj [("error",
                .jstr "sourceId, filePath, and sourceType are required")]) },
          fetchCalls := [], attempts := [], writes := [] }
      else
        let sourceId := b.sourceId.getD ""
        let filePath := b.filePath.getD ""
        let sourceType := b.sourceType.getD ""
        if !strTruthy env.documentProcessingWebhookUrl then
          let errorMessage := "Document processing webhook URL not configured. Please set DOCUMENT_PROCESSING_WEBHOOK_URL in Supabase Edge Function secrets."
          updateThenRespond req updateFail
            (updateSourceStatus sourceId "failed" (some errorMessage))
            { status := 500, headers := jsonHeaders,
              body := .json (.obj [("error", .jstr errorMessage)]) } []
        else
          let webhookUrl := env.documentProcessingWebhookUrl.getD ""
          if !isValidUrl webhookUrl then
            let errorMessage := "Invalid webhook URL format: " ++ webhookUrl ++ ". Please ensure the URL includes the protocol (https://) and is properly formatted."
            updateThenRespond req updateFail
              (updateSourceStatus sourceId "failed" (some errorMessage))
              { status := 500, headers := jsonHeaders,
                body := .json (.obj [("error", .jstr errorMessage)]) } []
          else
            let fileUrl := envStr env.supabaseUrl ++ "/storage/v1/object/public/sources/" ++ filePath
            let payload := JValue.obj
              [("source_id", .jstr sourceId),
               ("file_url", .jstr fileUrl),
               ("file_path", .jstr filePath),
               ("source_type", .jstr sourceType),
               ("callback_url", .jstr (envStr env.supabaseUrl ++ "/functions/v1/process-document-callback"))]
            match fetch with
            | .networkError _ =>
              let errorMessage := "Failed to connect to webhook URL: " ++ webhookUrl ++ ". Please verify the URL is correct and accessible."
              updateThenRespond req updateFail
                (updateSourceStatus sourceId "failed" (some errorMessage))
                { status := 500, headers := jsonHeaders,
                  body := .json (.obj [("error", .jstr "Document processing failed"),
                                       ("details", .jstr errorMessage),
                                       ("webhookUrl", .jstr webhookUrl)]) } [payload]
            | .response r =>
              if !r.isOk then
                let errorText := r.bodyText
                let errorMessage := "Webhook returned " ++ toString r.status ++ " " ++ r.statusText ++ ": " ++ errorText
                updateThenRespond req updateFail
                  (updateSourceStatus sourceId "failed" (some errorMessage))
                  { status := 500, headers := jsonHeaders,
                    body := .json (.obj [("error", .jstr "Document processing failed"),
                                         ("details", .jstr errorMessage),
                                         ("webhookUrl", .jstr webhookUrl),
                                         ("status", .jnum r.status),
                                         ("statusText", .jstr r.statusText)]) } [payload]
              else
                match rt.parseJson r.bodyText with
                | none =>
                  processDocumentCatch req updateFail 0 (rt.jsonErrMsg r.bodyText)
                    [payload] [] []
                | some result =>
                  { response :=
                      { status := 200, headers := jsonHeaders,
                        body := .json (.obj [("success", .jbool true),
                                             ("message", .jstr "Document processing initiated"),
                                             ("result", result)]) },
                    fetchCalls := [payload], attempts := [], writes := [] }

/-! ### Handler B, `supabase/functions/send-chat-message/index.ts` -/

/-- Parsed fields of the Handler B request body `{session_id, message,
user_id}`; no presence validation is performed on them. -/
structure BodyB where
  sessionId : Option String
  message : Option String
  userId : Option String
deriving Repr, DecidableEq

/-- A request to Handler B. -/
structure RequestB where
  method : String
  body : JsResult BodyB
deriving Repr, DecidableEq

/-- Result of one Handler B invocation (this handler has no store
collaborator, so only the outbound payloads are recorded). -/
structure ResultB where
  response : HttpResponse
  fetchCalls : List JValue
deriving Repr, DecidableEq

/-- An object field that `JSON.stringify` keeps only when the value is
defined (an undefined field is dropped from the serialized body). -/
def optField (name : String) (v : Option String) : List (String × JValue) :=
  match v with
  | some s => [(name, JValue.jstr s)]
  | none => []

/-- The `details` object of every Handler B error response:
`{webhookUrl, hasAuth, timestamp}`, where the `webhookUrl` field is
dropped by `JSON.stringify` when `NOTEBOOK_CHAT_URL` is unset. -/
def chatErrorDetails (env : EnvVars) (now : String) : JValue :=
  .obj (optField "webhookUrl" env.notebookChatUrl ++
        [("hasAuth", .jbool (strTruthy env.notebookGenerationAuth)),
         ("timestamp", .jstr now)])

/-- The top-level catch of Handler B: a single 500 JSON error response
whose `error` field is the caught message (with a fallback when the
message string is falsy) and whose `details` carry the current
configuration state and a timestamp. -/
def chatCatch (env : EnvVars) (now : String) (errMsg : String)
    (fetchCalls : List JValue) : ResultB :=
  { response :=
      { status := 500, headers := jsonHeaders,
        body := .json (.obj
          [("error", .jstr (if errMsg == "" then "Failed to send message to webhook" else errMsg)),
           ("details", chatErrorDetails env now)]) },
    fetchCalls }

/-- Handler B.  In the success branch, a body that fails to parse as
JSON sends control through the parse catch, whose
`await webhookResponse.text()` runs on a body stream already consumed
by `webhookResponse.json()`; per the fetch standard (Body mixin) that
call rejects with `TypeError: Body already consumed`, so the fallback
object is never built and the error reaches the top-level catch. -/
def sendChatMessage (env : EnvVars) (req : RequestB) (fetch : FetchOutcome)
    (rt : JsRuntime) : ResultB :=
  if req.method == "OPTIONS" then
    { response := { status := 200, headers := corsHeaders, body := .empty },
      fetchCalls := [] }
  else
    match req.body with
    | .err msg => chatCatch env rt.now msg []
    | .ok b =>
      if !strTruthy env.notebookChatUrl then
        chatCatch env rt.now "NOTEBOOK_CHAT_URL environment variable not set. Please configure this secret in Supabase Edge Functions." []
      else if !strTruthy env.notebookGenerationAuth then
        chatCatch env rt.now "NOTEBOOK_GENERATION_AUTH environment variable not set. Please configure this secret in Supabase Edge Functions." []
      else
        let webhookUrl := env.notebookChatUrl.getD ""
        if !isValidUrl webhookUrl then
          chatCatch env rt.now ("Invalid NOTEBOOK_CHAT_URL format: " ++ webhookUrl ++ ". Please ensure the URL includes the protocol (https://) and is properly formatted.") []
        else
          let payload := JValue.obj
            (optField "session_id" b.sessionId ++
             optField "message" b.message ++
             optField "user_id" b.userId ++
             [("timestamp", .jstr rt.now)])
          match fetch with
          | .networkError m =>
            chatCatch env rt.now
              ("Failed to connect to webhook URL: " ++ webhookUrl ++ ". Network error: " ++ m)
              [payload]
          | .response r =>
            if !r.isOk then
              chatCatch env rt.now
                ("Webhook responded with status: " ++ toString r.status ++ " " ++ r.statusText ++ ". Response: " ++ r.bodyText)
                [payload]
            else
              match rt.parseJson r.bodyText with
              | some webhookData =>
                { response :=
                    { status := 200, headers := jsonHeaders,
                      body := .json (.obj [("success", .jbool true),
                                           ("data", webhookData)]) },
                  fetchCalls := [payload] }
              | none =>
                chatCatch env rt.now "Body already consumed" [payload]

/-! ### String containment -/

/-- Whether `sub` occurs at the head of `s`. -/
def leadsList (sub s : List Char) : Bool :=
  match sub, s with
  | [], _ => true
  | _ :: _, [] => false
  | a :: as, b :: bs => a == b && leadsList as bs

/-- Whether `sub` occurs anywhere inside `s`. -/
def containsList (sub s : List Char) : Bool :=
  match s with
  | [] => leadsList sub []
  | _ :: bs => leadsList sub s || containsList sub bs

/-- Whether the string `sub` occurs inside the string `s`. -/
def strContains (s sub : String) : Bool := containsList sub.data s.data

theorem leadsList_append (sub t : List Char) : leadsList sub (sub ++ t) = true := by
  induction sub with
  | nil => rfl
  | cons a as ih => simp [leadsList, ih]

theorem containsList_self_append (sub t : List Char) :
    containsList sub (sub ++ t) = true := by
  cases sub with
  | nil => cases t <;> simp [containsList, leadsList]
  | cons a as =>
    have h : leadsList (a :: as) ((a :: as) ++ t) = true := leadsList_append _ _
    simp only [containsList, Bool.or_eq_true]
    left
    simpa using h

theorem containsList_append (p sub t : List Char) :
    containsList sub (p ++ (sub ++ t)) = true := by
  induction p with
  | nil => simpa using containsList_self_append sub t
  | cons b bs ih => simp [containsList, ih]

theorem string_data_append (a b : String) : (a ++ b).data = a.data ++ b.data := rfl

/-- A string contains any middle segment of a three-part concatenation. -/
theorem strContains_middle (a b c : String) : strContains (a ++ b ++ c) b = true := by
  have h : (a ++ b ++ c).data = a.data ++ (b.data ++ c.data) := by
    simp [string_data_append]
  simp [strContains, h, containsList_append]

theorem string_append_assoc (a b c : String) : a ++ b ++ c = a ++ (b ++ c) := by
  apply String.ext
  simp [string_data_append]

theorem string_append_empty (a : String) : a ++ "" = a := by
  apply String.ext
  simp [string_data_append]

theorem string_append_ne_empty (a b : String) (h : a.data ≠ []) : a ++ b ≠ "" := by
  intro hc
  have h2 : (a ++ b).data = ([] : List Char) := by rw [hc]
  rw [string_data_append] at h2
  exact h (List.append_eq_nil.mp h2).1

theorem method_not_options {m : String} (h : m ≠ "OPTIONS") : (m == "OPTIONS") = false := by
  simp [h]

theorem strTruthy_some {s : String} (h : s ≠ "") : strTruthy (some s) = true := by
  simp [strTruthy, h]

theorem strTruthy_append (a b : String) (h : a.data ≠ []) :
    strTruthy (some (a ++ b)) = true :=
  strTruthy_some (string_append_ne_empty a b h)

/-! ### Concrete fixtures used by witnesses and counterexamples -/

/-- A fully configured environment. -/
def envFix : EnvVars :=
  { supabaseUrl := some "https://proj.supabase.co",
    supabaseServiceRoleKey := some "service-key",
    documentProcessingWebhookUrl := some "https://hook.example.com/wh",
    notebookGenerationAuth := some "secret-token",
    notebookChatUrl := some "https://chat.example.com/wh" }

/-- A runtime whose JSON codec rejects the text `done` and parses
everything else to the object `{ok: true}`. -/
def rtFix : JsRuntime :=
  { parseJson := fun s => if s == "done" then none else some (.obj [("ok", .jbool true)]),
    jsonErrMsg := fun _ => "Unexpected token d in JSON at position 0",
    now := "2025-01-01T00:00:00.000Z" }

/-- A well-formed Handler A request. -/
def reqAFix : RequestA := { method := "POST", body := .ok ⟨some "s1", some "doc.pdf", some "pdf"⟩ }

/-- A well-formed Handler B request. -/
def reqBFix : RequestB := { method := "POST", body := .ok ⟨some "sess-1", some "hello", some "u-1"⟩ }

/-- A store client that never throws. -/
def noUpdateFail : Nat → Option String := fun _ => none

/-- A store client whose first `updateSourceStatus` call throws. -/
def updFailFirst : Nat → Option String := fun n => if n == 0 then some "store write failed" else none

/-- The fixture environment with `DOCUMENT_PROCESSING_WEBHOOK_URL` unset. -/
def envNoHook : EnvVars := { envFix with documentProcessingWebhookUrl := none }

/-- The fixture environment with `NOTEBOOK_CHAT_URL` and
`NOTEBOOK_GENERATION_AUTH` unset. -/
def envNoChat : EnvVars := { envFix with notebookChatUrl := none, notebookGenerationAuth := none }

/-! ### Claims -/

/-- C4: the URL validator `isValidUrl` is a pure function returning true
iff its string argument parses as a structurally valid URL (the success
predicate of the modelled `new URL` constructor) and false on any parse
failure; in particular it returns false for `not a url` and
`http//missing-colon` and true for `https://example.com/path`. -/
theorem c4_isValidUrl_contract :
    (∀ s : String, isValidUrl s = newURLSucceeds s) ∧
    isValidUrl "not a url" = false ∧
    isValidUrl "http//missing-colon" = false ∧
    isValidUrl "https://example.com/path" = true :=
  ⟨fun _ => rfl, by decide, by decide, by decide⟩

/-- C3: for every Handler A request in which any of `sourceId`,
`filePath` or `sourceType` is missing, the response is a 400 carrying an
error message naming the required fields, and no outbound webhook call
and no status-record write occurs. -/
theorem c3_required_fields_400 (env : EnvVars) (reqA : RequestA) (b : BodyA)
    (fetch : FetchOutcome) (updateFail : Nat → Option String) (rt : JsRuntime)
    (hm : reqA.method ≠ "OPTIONS") (hb : reqA.body = .ok b)
    (hmiss : b.sourceId = none ∨ b.filePath = none ∨ b.sourceType = none) :
    processDocument env reqA fetch updateFail rt =
      { response :=
          { status := 400, headers := jsonHeaders,
            body := .json (.obj [("error",
              .jstr "sourceId, filePath, and sourceType are required")]) },
        fetchCalls := [], attempts := [], writes := [] } := by
  have hcond : (!strTruthy b.sourceId || !strTruthy b.filePath || !strTruthy b.sourceType) = true := by
    rcases hmiss with h | h | h <;> simp [h, strTruthy]
  simp [processDocument, method_not_options hm, hb, hcond]

theorem c3_required_fields_400_witness :
    processDocument envFix { method := "POST", body := .ok ⟨none, some "doc.pdf", some "pdf"⟩ }
        (.networkError "unreachable") noUpdateFail rtFix =
      { response :=
          { status := 400, headers := jsonHeaders,
            body := .json (.obj [("error",
              .jstr "sourceId, filePath, and sourceType are required")]) },
        fetchCalls := [], attempts := [], writes := [] } :=
  c3_required_fields_400 envFix _ _ _ _ rtFix (by decide) rfl (Or.inl rfl)

/-- C9: for every Handler A request in which `sourceId`, `filePath` or
`sourceType` is present but equal to the empty string, the handler
returns the same 400 required-fields error as when the field is absent,
with no outbound call and no status write (presence is checked by
truthiness, not by key existence). -/
theorem c9_empty_string_fields_400 (env : EnvVars) (reqA : RequestA)
    (fetch : FetchOutcome) (updateFail : Nat → Option String) (rt : JsRuntime)
    (s1 s2 s3 : String)
    (hm : reqA.method ≠ "OPTIONS") (hb : reqA.body = .ok ⟨some s1, some s2, some s3⟩)
    (hempty : s1 = "" ∨ s2 = "" ∨ s3 = "") :
    processDocument env reqA fetch updateFail rt =
      { response :=
          { status := 400, headers := jsonHeaders,
            body := .json (.obj [("error",
              .jstr "sourceId, filePath, and sourceType are required")]) },
        fetchCalls := [], attempts := [], writes := [] } := by
  have hcond : (!strTruthy (some s1) || !strTruthy (some s2) || !strTruthy (some s3)) = true := by
    rcases hempty with h | h | h <;> simp [h, strTruthy]
  simp [processDocument, method_not_options hm, hb, hcond]

theorem c9_empty_string_fields_400_witness :
    processDocument envFix { method := "POST", body := .ok ⟨some "", some "doc.pdf", some "pdf"⟩ }
        (.networkError "unreachable") noUpdateFail rtFix =
      { response :=
          { status := 400, headers := jsonHeaders,
            body := .json (.obj [("error",
              .jstr "sourceId, filePath, and sourceType are required")]) },
        fetchCalls := [], attempts := [], writes := [] } :=
  c9_empty_string_fields_400 envFix _ _ _ rtFix "" "doc.pdf" "pdf" (by decide) rfl (Or.inl rfl)

/-- C8 (counterexample): the claim says each handler returns an empty
200 response on OPTIONS; Handler A in fact returns the raw body `ok`,
which is not empty (Handler B does return an empty body). -/
theorem c8_options_body_not_empty :
    (processDocument envFix { method := "OPTIONS", body := .ok ⟨some "s1", some "doc.pdf", some "pdf"⟩ }
        (.networkError "unreachable") noUpdateFail rtFix).response.body = .text "ok" ∧
    ResponseBody.text "ok" ≠ ResponseBody.empty := by
  exact ⟨rfl, by decide⟩

/-- C8 (amended): for every request with method OPTIONS, each handler
returns a 200 response carrying the permissive CORS headers, performing
no body parsing (the result is the same for every request body), no
outbound call and no status write; the body of the Handler B response is
empty, while Handler A responds with the raw text `ok`, not an empty body. -/
theorem c8_options_preflight (env : EnvVars) (fetch : FetchOutcome)
    (updateFail : Nat → Option String) (rt : JsRuntime)
    (bA : JsResult BodyA) (bB : JsResult BodyB) :
    processDocument env { method := "OPTIONS", body := bA } fetch updateFail rt =
      { response := { status := 200, headers := corsHeaders, body := .text "ok" },
        fetchCalls := [], attempts := [], writes := [] } ∧
    sendChatMessage env { method := "OPTIONS", body := bB } fetch rt =
      { response := { status := 200, headers := corsHeaders, body := .empty },
        fetchCalls := [] } := by
  constructor <;> simp [processDocument, sendChatMessage]

/-- C1 (code bug): the claim says that when the Handler B outbound call
succeeds but the response body fails to parse as JSON, the handler
responds success with a fallback object carrying the raw text, never
raising a parse error to the caller.  On the code, the fallback is
unreachable: `webhookResponse.json()` consumes the body stream, so the
`webhookResponse.text()` call inside the parse catch rejects with
`TypeError: Body already consumed`, which escapes to the top-level
catch.  With a 200 upstream response whose body is the non-JSON text
`done`, the handler responds 500 with that TypeError message, not
success with the fallback object. -/
theorem c1_nonjson_fallback_unreachable :
    sendChatMessage envFix reqBFix (.response ⟨200, "OK", "done"⟩) rtFix =
      { response :=
          { status := 500, headers := jsonHeaders,
            body := .json (.obj
              [("error", .jstr "Body already consumed"),
               ("details", .obj
                 [("webhookUrl", .jstr "https://chat.example.com/wh"),
                  ("hasAuth", .jbool true),
                  ("timestamp", .jstr "2025-01-01T00:00:00.000Z")])]) },
        fetchCalls := [JValue.obj
          [("session_id", .jstr "sess-1"),
           ("message", .jstr "hello"),
           ("user_id", .jstr "u-1"),
           ("timestamp", .jstr "2025-01-01T00:00:00.000Z")]] } := by
  decide

/-- C2: if the required webhook-URL environment variable is unset
(DOCUMENT_PROCESSING_WEBHOOK_URL for Handler A, NOTEBOOK_CHAT_URL for
Handler B), the handler responds 500, and Handler A additionally writes
the status record to `failed` exactly once, before responding, with an
error message that contains the name of the missing variable. -/
theorem c2_missing_webhook_env (env : EnvVars) (reqA : RequestA) (reqB : RequestB)
    (fetch : FetchOutcome) (updateFail : Nat → Option String) (rt : JsRuntime)
    (sid fp st : String)
    (hmA : reqA.method ≠ "OPTIONS")
    (hbA : reqA.body = .ok ⟨some sid, some fp, some st⟩)
    (hsid : sid ≠ "") (hfp : fp ≠ "") (hst : st ≠ "")
    (hwa : env.documentProcessingWebhookUrl = none)
    (hupd : updateFail 0 = none)
    (hmB : reqB.method ≠ "OPTIONS")
    (hwb : env.notebookChatUrl = none) :
    (processDocument env reqA fetch updateFail rt).response.status = 500 ∧
    (processDocument env reqA fetch updateFail rt).writes =
      [{ sourceId := sid, status := "failed",
         errorMessage := some "Document processing webhook URL not configured. Please set DOCUMENT_PROCESSING_WEBHOOK_URL in Supabase Edge Function secrets." }] ∧
    strContains "Document processing webhook URL not configured. Please set DOCUMENT_PROCESSING_WEBHOOK_URL in Supabase Edge Function secrets."
      "DOCUMENT_PROCESSING_WEBHOOK_URL" = true ∧
    (sendChatMessage env reqB fetch rt).response.status = 500 := by
  have hrun : processDocument env reqA fetch updateFail rt =
      { response :=
          { status := 500, headers := jsonHeaders,
            body := .json (.obj [("error",
              .jstr "Document processing webhook URL not configured. Please set DOCUMENT_PROCESSING_WEBHOOK_URL in Supabase Edge Function secrets.")]) },
        fetchCalls := [],
        attempts := [{ sourceId := sid, status := "failed",
                       errorMessage := some "Document processing webhook URL not configured. Please set DOCUMENT_PROCESSING_WEBHOOK_URL in Supabase Edge Function secrets." }],
        writes := [{ sourceId := sid, status := "failed",
                     errorMessage := some "Document processing webhook URL not configured. Please set DOCUMENT_PROCESSING_WEBHOOK_URL in Supabase Edge Function secrets." }] } := by
    simp +decide [processDocument, method_not_options hmA, hbA, strTruthy_some hsid,
      strTruthy_some hfp, strTruthy_some hst, hwa, strTruthy, updateThenRespond, hupd,
      updateSourceStatus]
    exact ⟨⟨hsid, hfp⟩, hst⟩
  have hB : (sendChatMessage env reqB fetch rt).response.status = 500 := by
    cases hbB : reqB.body <;>
      simp [sendChatMessage, chatCatch, method_not_options hmB, hbB, hwb, strTruthy]
  refine ⟨by rw [hrun], by rw [hrun], by decide, hB⟩

/-- The fixture environment with both webhook-URL variables unset. -/
def envNoUrls : EnvVars :=
  { envFix with documentProcessingWebhookUrl := none, notebookChatUrl := none }

theorem c2_missing_webhook_env_witness :
    (processDocument envNoUrls reqAFix (.networkError "unreachable") noUpdateFail rtFix).response.status = 500 ∧
    (processDocument envNoUrls reqAFix (.networkError "unreachable") noUpdateFail rtFix).writes =
      [{ sourceId := "s1", status := "failed",
         errorMessage := some "Document processing webhook URL not configured. Please set DOCUMENT_PROCESSING_WEBHOOK_URL in Supabase Edge Function secrets." }] ∧
    strContains "Document processing webhook URL not configured. Please set DOCUMENT_PROCESSING_WEBHOOK_URL in Supabase Edge Function secrets."
      "DOCUMENT_PROCESSING_WEBHOOK_URL" = true ∧
    (sendChatMessage envNoUrls reqBFix (.networkError "unreachable") rtFix).response.status = 500 :=
  c2_missing_webhook_env envNoUrls reqAFix reqBFix (.networkError "unreachable")
    noUpdateFail rtFix "s1" "doc.pdf" "pdf" (by decide) rfl (by decide) (by decide)
    (by decide) rfl rfl (by decide) rfl

theorem containsList_append_left (p sub s : List Char) (h : containsList sub s = true) :
    containsList sub (p ++ s) = true := by
  induction p with
  | nil => simpa using h
  | cons b bs ih => simp [containsList, ih]

theorem strContains_head (b c : String) : strContains (b ++ c) b = true := by
  simp only [strContains, string_data_append]
  exact containsList_self_append b.data c.data

theorem strContains_self (b : String) : strContains b b = true := by
  have h := containsList_self_append b.data []
  simpa [strContains] using h

theorem strContains_prepend (a s sub : String) (h : strContains s sub = true) :
    strContains (a ++ s) sub = true := by
  simp only [strContains, string_data_append]
  exact containsList_append_left a.data sub.data s.data h

/-- C6: for every outbound call returning a non-success HTTP status,
each handler responds 500 with an error message embedding the upstream
status code, status text and response body text; Handler A additionally
sets the status record to `failed` with a message embedding the same
information. -/
theorem c6_upstream_error_diagnostics (env : EnvVars) (reqA : RequestA) (reqB : RequestB)
    (r : WebResponse) (updateFail : Nat → Option String) (rt : JsRuntime)
    (sid fp st wu wub : String) (bB : BodyB)
    (hmA : reqA.method ≠ "OPTIONS")
    (hbA : reqA.body = .ok ⟨some sid, some fp, some st⟩)
    (hsid : sid ≠ "") (hfp : fp ≠ "") (hst : st ≠ "")
    (hwa : env.documentProcessingWebhookUrl = some wu) (hwune : wu ≠ "")
    (hva : isValidUrl wu = true)
    (hupd : updateFail 0 = none)
    (hmB : reqB.method ≠ "OPTIONS") (hbB : reqB.body = .ok bB)
    (hwb : env.notebookChatUrl = some wub) (hwbne : wub ≠ "")
    (hvb : isValidUrl wub = true)
    (hauth : strTruthy env.notebookGenerationAuth = true)
    (hok : r.isOk = false) :
    (processDocument env reqA (.response r) updateFail rt =
      { response :=
          { status := 500, headers := jsonHeaders,
            body := .json (.obj
              [("error", .jstr "Document processing failed"),
               ("details", .jstr ("Webhook returned " ++ toString r.status ++ " " ++ r.statusText ++ ": " ++ r.bodyText)),
               ("webhookUrl", .jstr wu),
               ("status", .jnum r.status),
               ("statusText", .jstr r.statusText)]) },
        fetchCalls := [JValue.obj
          [("source_id", .jstr sid),
           ("file_url", .jstr (envStr env.supabaseUrl ++ "/storage/v1/object/public/sources/" ++ fp)),
           ("file_path", .jstr fp),
           ("source_type", .jstr st),
           ("callback_url", .jstr (envStr env.supabaseUrl ++ "/functions/v1/process-document-callback"))]],
        attempts := [{ sourceId := sid, status := "failed",
                       errorMessage := some ("Webhook returned " ++ toString r.status ++ " " ++ r.statusText ++ ": " ++ r.bodyText) }],
        writes := [{ sourceId := sid, status := "failed",
                     errorMessage := some ("Webhook returned " ++ toString r.status ++ " " ++ r.statusText ++ ": " ++ r.bodyText) }] }) ∧
    strContains ("Webhook returned " ++ toString r.status ++ " " ++ r.statusText ++ ": " ++ r.bodyText) (toString r.status) = true ∧
    strContains ("Webhook returned " ++ toString r.status ++ " " ++ r.statusText ++ ": " ++ r.bodyText) r.statusText = true ∧
    strContains ("Webhook returned " ++ toString r.status ++ " " ++ r.statusText ++ ": " ++ r.bodyText) r.bodyText = true ∧
    (sendChatMessage env reqB (.response r) rt =
      { response :=
          { status := 500, headers := jsonHeaders,
            body := .json (.obj
              [("error", .jstr ("Webhook responded with status: " ++ toString r.status ++ " " ++ r.statusText ++ ". Response: " ++ r.bodyText)),
               ("details", chatErrorDetails env rt.now)]) },
        fetchCalls := [JValue.obj
          (optField "session_id" bB.sessionId ++ optField "message" bB.message ++
           optField "user_id" bB.userId ++ [("timestamp", .jstr rt.now)])] }) ∧
    strContains ("Webhook responded with status: " ++ toString r.status ++ " " ++ r.statusText ++ ". Response: " ++ r.bodyText) (toString r.status) = true ∧
    strContains ("Webhook responded with status: " ++ toString r.status ++ " " ++ r.statusText ++ ". Response: " ++ r.bodyText) r.statusText = true ∧
    strContains ("Webhook responded with status: " ++ toString r.status ++ " " ++ r.statusText ++ ". Response: " ++ r.bodyText) r.bodyText = true := by
  have hAne : ("Webhook returned " ++ toString r.status ++ " " ++ r.statusText ++ ": " ++ r.bodyText) ≠ "" := by
    apply string_append_ne_empty
    simp +decide [string_data_append]
  have hBne : ("Webhook responded with status: " ++ toString r.status ++ " " ++ r.statusText ++ ". Response: " ++ r.bodyText) ≠ "" := by
    apply string_append_ne_empty
    simp +decide [string_data_append]
  refine ⟨?_, ?_, ?_, ?_, ?_, ?_, ?_, ?_⟩
  · simp +decide [processDocument, method_not_options hmA, hbA, hsid, hfp, hst,
      hwa, hwune, hva, strTruthy, updateThenRespond, hupd, updateSourceStatus, hok,
      beq_eq_false_iff_ne.mpr hAne]
  · simp only [string_append_assoc]
    exact strContains_prepend _ _ _ (strContains_head _ _)
  · simp only [string_append_assoc]
    exact strContains_prepend _ _ _ (strContains_prepend _ _ _
      (strContains_prepend _ _ _ (strContains_head _ _)))
  · simp only [string_append_assoc]
    exact strContains_prepend _ _ _ (strContains_prepend _ _ _ (strContains_prepend _ _ _
      (strContains_prepend _ _ _ (strContains_prepend _ _ _ (strContains_self _)))))
  · simp +decide [sendChatMessage, method_not_options hmB, hbB, hwb,
      strTruthy_some hwbne, hvb, hauth, hok, chatCatch, beq_eq_false_iff_ne.mpr hBne]
  · simp only [string_append_assoc]
    exact strContains_prepend _ _ _ (strContains_head _ _)
  · simp only [string_append_assoc]
    exact strContains_prepend _ _ _ (strContains_prepend _ _ _
      (strContains_prepend _ _ _ (strContains_head _ _)))
  · simp only [string_append_assoc]
    exact strContains_prepend _ _ _ (strContains_prepend _ _ _ (strContains_prepend _ _ _
      (strContains_prepend _ _ _ (strContains_prepend _ _ _ (strContains_self _)))))

theorem c6_upstream_error_diagnostics_witness :
    (processDocument envFix reqAFix (.response ⟨503, "Service Unavailable", "unavailable"⟩) noUpdateFail rtFix =
      { response :=
          { status := 500, headers := jsonHeaders,
            body := .json (.obj
              [("error", .jstr "Document processing failed"),
               ("details", .jstr "Webhook returned 503 Service Unavailable: unavailable"),
               ("webhookUrl", .jstr "https://hook.example.com/wh"),
               ("status", .jnum 503),
               ("statusText", .jstr "Service Unavailable")]) },
        fetchCalls := [JValue.obj
          [("source_id", .jstr "s1"),
           ("file_url", .jstr "https://proj.supabase.co/storage/v1/object/public/sources/doc.pdf"),
           ("file_path", .jstr "doc.pdf"),
           ("source_type", .jstr "pdf"),
           ("callback_url", .jstr "https://proj.supabase.co/functions/v1/process-document-callback")]],
        attempts := [{ sourceId := "s1", status := "failed",
                       errorMessage := some "Webhook returned 503 Service Unavailable: unavailable" }],
        writes := [{ sourceId := "s1", status := "failed",
                     errorMessage := some "Webhook returned 503 Service Unavailable: unavailable" }] }) ∧
    strContains "Webhook returned 503 Service Unavailable: unavailable" "503" = true ∧
    strContains "Webhook returned 503 Service Unavailable: unavailable" "Service Unavailable" = true ∧
    strContains "Webhook returned 503 Service Unavailable: unavailable" "unavailable" = true ∧
    (sendChatMessage envFix reqBFix (.response ⟨503, "Service Unavailable", "unavailable"⟩) rtFix =
      { response :=
          { status := 500, headers := jsonHeaders,
            body := .json (.obj
              [("error", .jstr "Webhook responded with status: 503 Service Unavailable. Response: unavailable"),
               ("details", chatErrorDetails envFix rtFix.now)]) },
        fetchCalls := [JValue.obj
          [("session_id", .jstr "sess-1"), ("message", .jstr "hello"), ("user_id", .jstr "u-1"),
           ("timestamp", .jstr "2025-01-01T00:00:00.000Z")]] }) ∧
    strContains "Webhook responded with status: 503 Service Unavailable. Response: unavailable" "503" = true ∧
    strContains "Webhook responded with status: 503 Service Unavailable. Response: unavailable" "Service Unavailable" = true ∧
    strContains "Webhook responded with status: 503 Service Unavailable. Response: unavailable" "unavailable" = true :=
  c6_upstream_error_diagnostics envFix reqAFix reqBFix ⟨503, "Service Unavailable", "unavailable"⟩
    noUpdateFail rtFix "s1" "doc.pdf" "pdf" "https://hook.example.com/wh" "https://chat.example.com/wh"
    ⟨some "sess-1", some "hello", some "u-1"⟩ (by decide) rfl (by decide) (by decide) (by decide)
    rfl (by decide) (by decide) rfl (by decide) rfl rfl (by decide) (by decide) (by decide) (by decide)

/-- C7: on an outbound call that succeeds with a JSON body, Handler A
responds 200 with `{success: true, message: "Document processing
initiated", result: <parsed body>}` and performs no status-record
write, and Handler B responds 200 with `{success: true, data: <parsed
body>}`. -/
theorem c7_success_responses (env : EnvVars) (reqA : RequestA) (reqB : RequestB)
    (r : WebResponse) (updateFail : Nat → Option String) (rt : JsRuntime)
    (sid fp st wu wub : String) (bB : BodyB) (v : JValue)
    (hmA : reqA.method ≠ "OPTIONS")
    (hbA : reqA.body = .ok ⟨some sid, some fp, some st⟩)
    (hsid : sid ≠ "") (hfp : fp ≠ "") (hst : st ≠ "")
    (hwa : env.documentProcessingWebhookUrl = some wu) (hwune : wu ≠ "")
    (hva : isValidUrl wu = true)
    (hmB : reqB.method ≠ "OPTIONS") (hbB : reqB.body = .ok bB)
    (hwb : env.notebookChatUrl = some wub) (hwbne : wub ≠ "")
    (hvb : isValidUrl wub = true)
    (hauth : strTruthy env.notebookGenerationAuth = true)
    (hok : r.isOk = true) (hparse : rt.parseJson r.bodyText = some v) :
    (processDocument env reqA (.response r) updateFail rt =
      { response :=
          { status := 200, headers := jsonHeaders,
            body := .json (.obj
              [("success", .jbool true),
               ("message", .jstr "Document processing initiated"),
               ("result", v)]) },
        fetchCalls := [JValue.obj
          [("source_id", .jstr sid),
           ("file_url", .jstr (envStr env.supabaseUrl ++ "/storage/v1/object/public/sources/" ++ fp)),
           ("file_path", .jstr fp),
           ("source_type", .jstr st),
           ("callback_url", .jstr (envStr env.supabaseUrl ++ "/functions/v1/process-document-callback"))]],
        attempts := [], writes := [] }) ∧
    (sendChatMessage env reqB (.response r) rt =
      { response :=
          { status := 200, headers := jsonHeaders,
            body := .json (.obj [("success", .jbool true), ("data", v)]) },
        fetchCalls := [JValue.obj
          (optField "session_id" bB.sessionId ++ optField "message" bB.message ++
           optField "user_id" bB.userId ++ [("timestamp", .jstr rt.now)])] }) := by
  constructor
  · simp +decide [processDocument, method_not_options hmA, hbA, hsid, hfp, hst,
      hwa, hwune, hva, strTruthy, hok, hparse]
  · simp +decide [sendChatMessage, method_not_options hmB, hbB, hwb,
      strTruthy_some hwbne, hvb, hauth, hok, hparse]

theorem c7_success_responses_witness :
    (processDocument envFix reqAFix (.response ⟨200, "OK", "okjson"⟩) noUpdateFail rtFix =
      { response :=
          { status := 200, headers := jsonHeaders,
            body := .json (.obj
              [("success", .jbool true),
               ("message", .jstr "Document processing initiated"),
               ("result", .obj [("ok", .jbool true)])]) },
        fetchCalls := [JValue.obj
          [("source_id", .jstr "s1"),
           ("file_url", .jstr "https://proj.supabase.co/storage/v1/object/public/sources/doc.pdf"),
           ("file_path", .jstr "doc.pdf"),
           ("source_type", .jstr "pdf"),
           ("callback_url", .jstr "https://proj.supabase.co/functions/v1/process-document-callback")]],
        attempts := [], writes := [] }) ∧
    (sendChatMessage envFix reqBFix (.response ⟨200, "OK", "okjson"⟩) rtFix =
      { response :=
          { status := 200, headers := jsonHeaders,
            body := .json (.obj [("success", .jbool true),
                                 ("data", .obj [("ok", .jbool true)])]) },
        fetchCalls := [JValue.obj
          [("session_id", .jstr "sess-1"), ("message", .jstr "hello"), ("user_id", .jstr "u-1"),
           ("timestamp", .jstr "2025-01-01T00:00:00.000Z")]] }) :=
  c7_success_responses envFix reqAFix reqBFix ⟨200, "OK", "okjson"⟩ noUpdateFail rtFix
    "s1" "doc.pdf" "pdf" "https://hook.example.com/wh" "https://chat.example.com/wh"
    ⟨some "sess-1", some "hello", some "u-1"⟩ (.obj [("ok", .jbool true)])
    (by decide) rfl (by decide) (by decide) (by decide) rfl (by decide) (by decide)
    (by decide) rfl rfl (by decide) (by decide) (by decide) (by decide) rfl

/-- C5 (counterexample): the claim says a throwing `updateSourceStatus`
never changes the response the caller receives; with the webhook URL
unset and a store client whose first write throws, the caller receives
the generic internal-error body instead of the configuration-error body
it receives when the write succeeds. -/
theorem c5_write_failure_masks_original :
    (processDocument envNoHook reqAFix (.networkError "refused") updFailFirst rtFix).response.body ≠
      (processDocument envNoHook reqAFix (.networkError "refused") noUpdateFail rtFix).response.body ∧
    (processDocument envNoHook reqAFix (.networkError "refused") updFailFirst rtFix).response.body =
      .json (.obj [("error", .jstr "Internal server error"),
                   ("details", .jstr "store write failed")]) := by
  decide

/-- C5 (amended): a failure of the status-record write in one of Handler
A mid-flow error branches is not merely logged: the thrown store error
propagates to the top-level catch, and the caller receives the generic
500 internal-error body carrying the store error message in place of the
original error body (the 500 status code is preserved); in the
missing-webhook-URL branch, when the write succeeds the caller receives
the original configuration-error body, and the two bodies always differ.
Only the recovery write inside the top-level catch is log-only (the
response above holds for every outcome of that second write, since the
first conclusion does not constrain the oracle beyond its first call). -/
theorem c5_write_failure_reaches_catch (env : EnvVars) (reqA : RequestA)
    (fetch : FetchOutcome) (updateFail updateOk : Nat → Option String) (rt : JsRuntime)
    (sid fp st m : String)
    (hmA : reqA.method ≠ "OPTIONS")
    (hbA : reqA.body = .ok ⟨some sid, some fp, some st⟩)
    (hsid : sid ≠ "") (hfp : fp ≠ "") (hst : st ≠ "")
    (hwa : env.documentProcessingWebhookUrl = none)
    (hfail : updateFail 0 = some m) (hok : updateOk 0 = none) :
    (processDocument env reqA fetch updateFail rt).response =
      { status := 500, headers := jsonHeaders,
        body := .json (.obj [("error", .jstr "Internal server error"),
                             ("details", .jstr m)]) } ∧
    (processDocument env reqA fetch updateOk rt).response =
      { status := 500, headers := jsonHeaders,
        body := .json (.obj [("error",
          .jstr "Document processing webhook URL not configured. Please set DOCUMENT_PROCESSING_WEBHOOK_URL in Supabase Edge Function secrets.")]) } ∧
    (processDocument env reqA fetch updateFail rt).response.body ≠
      (processDocument env reqA fetch updateOk rt).response.body := by
  have h1 : (processDocument env reqA fetch updateFail rt).response =
      { status := 500, headers := jsonHeaders,
        body := .json (.obj [("error", .jstr "Internal server error"),
                             ("details", .jstr m)]) } := by
    simp +decide [processDocument, method_not_options hmA, hbA, hsid, hfp, hst,
      hwa, strTruthy, updateThenRespond, hfail, processDocumentCatch]
  have h2 : (processDocument env reqA fetch updateOk rt).response =
      { status := 500, headers := jsonHeaders,
        body := .json (.obj [("error",
          .jstr "Document processing webhook URL not configured. Please set DOCUMENT_PROCESSING_WEBHOOK_URL in Supabase Edge Function secrets.")]) } := by
    simp +decide [processDocument, method_not_options hmA, hbA, hsid, hfp, hst,
      hwa, strTruthy, updateThenRespond, hok, updateSourceStatus]
  refine ⟨h1, h2, ?_⟩
  rw [h1, h2]
  simp [JValue.obj]

theorem c5_write_failure_reaches_catch_witness :
    ((processDocument envNoHook reqAFix (.networkError "refused") updFailFirst rtFix).response =
      { status := 500, headers := jsonHeaders,
        body := .json (.obj [("error", .jstr "Internal server error"),
                             ("details", .jstr "store write failed")]) }) ∧
    ((processDocument envNoHook reqAFix (.networkError "refused") noUpdateFail rtFix).response =
      { status := 500, headers := jsonHeaders,
        body := .json (.obj [("error",
          .jstr "Document processing webhook URL not configured. Please set DOCUMENT_PROCESSING_WEBHOOK_URL in Supabase Edge Function secrets.")]) }) ∧
    (processDocument envNoHook reqAFix (.networkError "refused") updFailFirst rtFix).response.body ≠
      (processDocument envNoHook reqAFix (.networkError "refused") noUpdateFail rtFix).response.body :=
  c5_write_failure_reaches_catch envNoHook reqAFix (.networkError "refused")
    updFailFirst noUpdateFail rtFix "s1" "doc.pdf" "pdf" "store write failed"
    (by decide) rfl (by decide) (by decide) (by decide) rfl rfl rfl

/-- C10 (counterexample): the claim says every Handler B error response
includes a details object containing the current value of the
NOTEBOOK_CHAT_URL environment variable; when that variable is unset, the
serialized details object carries no webhookUrl field at all (the
undefined value is dropped by JSON.stringify), as on the
missing-configuration error path shown here. -/
theorem c10_unset_url_detail_dropped :
    ((sendChatMessage envNoChat reqBFix (.networkError "refused") rtFix).response.body =
      .json (.obj
        [("error", .jstr "NOTEBOOK_CHAT_URL environment variable not set. Please configure this secret in Supabase Edge Functions."),
         ("details", .obj [("hasAuth", .jbool false),
                           ("timestamp", .jstr "2025-01-01T00:00:00.000Z")])])) ∧
    (JValue.obj [("hasAuth", .jbool false),
                 ("timestamp", .jstr "2025-01-01T00:00:00.000Z")]).hasKey "webhookUrl" = false ∧
    (sendChatMessage envNoChat reqBFix (.networkError "refused") rtFix).response.status = 500 := by
  decide

theorem chatCatch_body (env : EnvVars) (now msg : String) (calls : List JValue) :
    (chatCatch env now msg calls).response.body =
      .json (.obj
        [("error", .jstr (if msg == "" then "Failed to send message to webhook" else msg)),
         ("details", .obj (optField "webhookUrl" env.notebookChatUrl ++
            [("hasAuth", .jbool (strTruthy env.notebookGenerationAuth)),
             ("timestamp", .jstr now)]))]) := rfl

/-- C10 (amended): every Handler B error (status 500) response body is a
JSON object with an error message and a details object that carries the
full NOTEBOOK_CHAT_URL value when that variable is set (the field is
omitted from the serialized body when it is unset), a boolean hasAuth
reflecting whether NOTEBOOK_GENERATION_AUTH is truthy at response time,
and a timestamp. -/
theorem c10_error_details_shape (env : EnvVars) (req : RequestB) (fetch : FetchOutcome)
    (rt : JsRuntime) :
    (sendChatMessage env req fetch rt).response.status = 500 →
    ∃ msg, (sendChatMessage env req fetch rt).response.body =
      .json (.obj
        [("error", .jstr msg),
         ("details", .obj (optField "webhookUrl" env.notebookChatUrl ++
            [("hasAuth", .jbool (strTruthy env.notebookGenerationAuth)),
             ("timestamp", .jstr rt.now)]))]) := by
  intro h500
  by_cases hm : (req.method == "OPTIONS") = true
  · exact absurd h500 (by simp [sendChatMessage, hm])
  rw [Bool.not_eq_true] at hm
  cases hb : req.body with
  | err m =>
    have hrw : sendChatMessage env req fetch rt = chatCatch env rt.now m [] := by
      simp [sendChatMessage, hm, hb]
    exact ⟨_, by rw [hrw, chatCatch_body]⟩
  | ok b =>
    by_cases hcu : strTruthy env.notebookChatUrl = true
    case neg =>
      rw [Bool.not_eq_true] at hcu
      have hrw : sendChatMessage env req fetch rt =
          chatCatch env rt.now "NOTEBOOK_CHAT_URL environment variable not set. Please configure this secret in Supabase Edge Functions." [] := by
        simp [sendChatMessage, hm, hb, hcu]
      exact ⟨_, by rw [hrw, chatCatch_body]⟩
    case pos =>
    by_cases hau : strTruthy env.notebookGenerationAuth = true
    case neg =>
      rw [Bool.not_eq_true] at hau
      have hrw : sendChatMessage env req fetch rt =
          chatCatch env rt.now "NOTEBOOK_GENERATION_AUTH environment variable not set. Please configure this secret in Supabase Edge Functions." [] := by
        simp [sendChatMessage, hm, hb, hcu, hau]
      exact ⟨_, by rw [hrw, chatCatch_body]⟩
    case pos =>
    by_cases hv : isValidUrl (env.notebookChatUrl.getD "") = true
    case neg =>
      rw [Bool.not_eq_true] at hv
      have hrw : sendChatMessage env req fetch rt =
          chatCatch env rt.now ("Invalid NOTEBOOK_CHAT_URL format: " ++ env.notebookChatUrl.getD "" ++ ". Please ensure the URL includes the protocol (https://) and is properly formatted.") [] := by
        simp [sendChatMessage, hm, hb, hcu, hau, hv]
      exact ⟨_, by rw [hrw, chatCatch_body]⟩
    case pos =>
    cases hf : fetch with
    | networkError m2 =>
      have hrw : sendChatMessage env req (.networkError m2) rt =
          chatCatch env rt.now ("Failed to connect to webhook URL: " ++ env.notebookChatUrl.getD "" ++ ". Network error: " ++ m2)
            [JValue.obj (optField "session_id" b.sessionId ++ optField "message" b.message ++
                         optField "user_id" b.userId ++ [("timestamp", .jstr rt.now)])] := by
        simp [sendChatMessage, hm, hb, hcu, hau, hv, hf]
      exact ⟨_, by rw [hrw, chatCatch_body]⟩
    | response r =>
      by_cases hok2 : r.isOk = true
      case neg =>
        rw [Bool.not_eq_true] at hok2
        have hrw : sendChatMessage env req (.response r) rt =
            chatCatch env rt.now ("Webhook responded with status: " ++ toString r.status ++ " " ++ r.statusText ++ ". Response: " ++ r.bodyText)
              [JValue.obj (optField "session_id" b.sessionId ++ optField "message" b.message ++
                           optField "user_id" b.userId ++ [("timestamp", .jstr rt.now)])] := by
          simp [sendChatMessage, hm, hb, hcu, hau, hv, hf, hok2]
        exact ⟨_, by rw [hrw, chatCatch_body]⟩
      case pos =>
        cases hp : rt.parseJson r.bodyText with
        | some v =>
          exact absurd h500 (by simp [sendChatMessage, hm, hb, hcu, hau, hv, hf, hok2, hp])
        | none =>
          have hrw : sendChatMessage env req (.response r) rt =
              chatCatch env rt.now "Body already consumed"
                [JValue.obj (optField "session_id" b.sessionId ++ optField "message" b.message ++
                             optField "user_id" b.userId ++ [("timestamp", .jstr rt.now)])] := by
            simp [sendChatMessage, hm, hb, hcu, hau, hv, hf, hok2, hp]
          exact ⟨_, by rw [hrw, chatCatch_body]⟩

theorem c10_error_details_shape_witness :
    ∃ msg, (sendChatMessage envFix reqBFix (.networkError "refused") rtFix).response.body =
      .json (.obj
        [("error", .jstr msg),
         ("details", .obj (optField "webhookUrl" envFix.notebookChatUrl ++
            [("hasAuth", .jbool (strTruthy envFix.notebookGenerationAuth)),
             ("timestamp", .jstr rtFix.now)]))]) :=
  c10_error_details_shape envFix reqBFix (.networkError "refused") rtFix (by decide)
